import Mathlib

/-!
Verification of the Myco-Barrier SDN controller (shallow embedding).

The definitions below are translated from the Python sources:
  - myco_barrier_logic.py   (rate-based detection, quarantine, VPA reintegration)
  - myco_controller_gpt.py  (REST trigger, event orchestration, strategies,
                             ARP steering, echo-RTT latency monitor)

Conventions of the embedding:
  - Python dicts become association lists with lookup helpers (alist_get /
    alist_set / alist_del); a Python set becomes a list to which elements are
    only added when absent.
  - Wall-clock timestamps (time.time()) become a Nat parameter supplied with
    each handled event; the two time.time() calls inside one handler
    invocation are modelled as a single instant.
  - random draws (random.choice / random.random outcomes) become an explicit
    Bool parameter (the oracle outcome of the draw).
  - Messages sent to switches (dp.send_msg) are collected in an output list
    instead of being sent.
  - Python exceptions that escape a handler are modelled with Except: an
    Except.error result means the handler raised before emitting anything
    (in each modelled raise site no state was mutated before the raise).
-/

namespace Myco

/-- Association-list lookup, modelling Python dict access (d.get(k) / k in d). -/
def alist_get {α β : Type} [DecidableEq α] : List (α × β) → α → Option β
  | [], _ => none
  | (k2, v) :: rest, k => if k2 = k then some v else alist_get rest k

/-- Remove the binding of a key, modelling Python del d[k] (dict keys are unique,
so removing every occurrence agrees with dict semantics). -/
def alist_del {α β : Type} [DecidableEq α] : List (α × β) → α → List (α × β)
  | [], _ => []
  | (k2, v) :: rest, k => if k2 = k then alist_del rest k else (k2, v) :: alist_del rest k

/-- Update the binding of a key, modelling Python d[k] = v. -/
def alist_set {α β : Type} [DecidableEq α] (l : List (α × β)) (k : α) (v : β) :
    List (α × β) :=
  (k, v) :: alist_del l k

theorem alist_get_del_eq {α β : Type} [DecidableEq α] (l : List (α × β)) (k : α) :
    alist_get (alist_del l k) k = none := by
  induction l with
  | nil => rfl
  | cons hd tl ih =>
    obtain ⟨k2, v⟩ := hd
    by_cases h : k2 = k
    · simp [alist_del, h, ih]
    · simp [alist_del, alist_get, h, ih]

theorem alist_get_del_ne {α β : Type} [DecidableEq α] (l : List (α × β)) (k k2 : α)
    (h : k2 ≠ k) : alist_get (alist_del l k2) k = alist_get l k := by
  induction l with
  | nil => rfl
  | cons hd tl ih =>
    obtain ⟨k3, v⟩ := hd
    by_cases h3 : k3 = k2
    · subst h3
      simp [alist_del, alist_get, h, ih]
    · by_cases h4 : k3 = k <;> simp [alist_del, alist_get, h3, h4, ih, Ne.symm h]

theorem alist_get_set_eq {α β : Type} [DecidableEq α] (l : List (α × β)) (k : α) (v : β) :
    alist_get (alist_set l k v) k = some v := by
  simp [alist_set, alist_get]

theorem alist_get_set_ne {α β : Type} [DecidableEq α] (l : List (α × β)) (k k2 : α)
    (v : β) (h : k2 ≠ k) : alist_get (alist_set l k2 v) k = alist_get l k := by
  simp [alist_set, alist_get, h, alist_get_del_ne l k k2 h]

/-- OpenFlow 1.3 reserved port numbers and constants used by the sources. -/
def OFPP_FLOOD : Nat := 0xfffffffb

def OFPP_CONTROLLER : Nat := 0xfffffffd

def OFP_NO_BUFFER : Nat := 0xffffffff

def ETH_TYPE_LLDP : Nat := 0x88cc

def ETH_TYPE_IP : Nat := 0x0800

def ARP_REQUEST : Nat := 1

def FULL_COOKIE_MASK : Nat := 0xFFFFFFFFFFFFFFFF

/-- OpenFlow match, with one optional field per match key used in the sources
(parser.OFPMatch keyword arguments). -/
structure OFMatch where
  m_in_port : Option Nat
  m_eth_src : Option String
  m_eth_dst : Option String
  m_eth_type : Option Nat
  m_ipv4_src : Option String
  m_ipv4_dst : Option String
deriving Repr, DecidableEq

/-- OFPMatch() with no keyword arguments (table-miss match-all). -/
def OFMatch.empty : OFMatch := ⟨none, none, none, none, none, none⟩

/-- OFPMatch(eth_src=src), the quarantine drop-rule match. -/
def matchEthSrc (src : String) : OFMatch :=
  { OFMatch.empty with m_eth_src := some src }

/-- OFPMatch(in_port=in_port, eth_dst=dst, eth_src=src), the learned L2 match. -/
def matchL2 (pt : Nat) (src dst : String) : OFMatch :=
  { OFMatch.empty with m_in_port := some pt, m_eth_src := some src, m_eth_dst := some dst }

/-- OFPMatch(eth_type=0x0800, ipv4_dst=ip). -/
def matchIpDst (ip : String) : OFMatch :=
  { OFMatch.empty with m_eth_type := some ETH_TYPE_IP, m_ipv4_dst := some ip }

/-- OFPMatch(eth_type=0x0800, ipv4_src=ip). -/
def matchIpSrc (ip : String) : OFMatch :=
  { OFMatch.empty with m_eth_type := some ETH_TYPE_IP, m_ipv4_src := some ip }

/-- OFPMatch(eth_type=0x0800, in_port=pt, ipv4_src=ip), the swap outbound match. -/
def matchInPortIpSrc (pt : Nat) (ip : String) : OFMatch :=
  { OFMatch.empty with
    m_in_port := some pt, m_eth_type := some ETH_TYPE_IP, m_ipv4_src := some ip }

/-- OpenFlow actions used by the sources. -/
inductive OFAction
  | output (port : Nat)
  | setIpv4Dst (ip : String)
  | setEthDst (mac : String)
  | setIpv4Src (ip : String)
  | setEthSrc (mac : String)
deriving Repr, DecidableEq

/-- Protocol messages emitted by the controller (dp.send_msg arguments). -/
inductive OFMsg
  | flowAdd (dpid : Nat) (cookie : Nat) (priority : Nat) (mtch : OFMatch)
      (actions : List OFAction) (idle : Nat) (hard : Nat) (buffer_id : Nat)
  | flowDelete (dpid : Nat) (cookie : Nat) (cookie_mask : Nat)
  | packetOut (dpid : Nat) (buffer_id : Nat) (po_in_port : Nat)
      (actions : List OFAction) (data_present : Bool)
  | echoRequest (dpid : Nat) (xid : Nat)
deriving Repr, DecidableEq

/-! ## Model of myco_barrier_logic.py (MycoBarrierLogic) -/

/-- self.DETECTION_THRESHOLD = 30 (packets per second to trigger isolation). -/
def DETECTION_THRESHOLD : Nat := 30

/-- self.RECOVERY_TIME = 10 (seconds in First Degree Isolation). -/
def RECOVERY_TIME : Nat := 10

/-- Mutable state of MycoBarrierLogic.  mac_to_port and packet_counts flatten
the Python dict-of-dicts to maps keyed by (dpid, mac). -/
structure BarrierState where
  mac_to_port : List ((Nat × String) × Nat)
  packet_counts : List ((Nat × String) × Nat)
  quarantine_list : List (String × Nat)
  vpa_verification_queue : List String
  start_time : Nat
deriving Repr, DecidableEq

/-- MycoBarrierLogic.add_flow: the FlowMod carries no cookie (cookie 0) and
buffer_id defaults via Python truthiness (buffer_id or OFP_NO_BUFFER). -/
def barrier_add_flow (dpid priority : Nat) (mtch : OFMatch) (actions : List OFAction)
    (buffer_id : Option Nat) (idle hard : Nat) : OFMsg :=
  OFMsg.flowAdd dpid 0 priority mtch actions idle hard
    (match buffer_id with
     | some b => if b = 0 then OFP_NO_BUFFER else b
     | none => OFP_NO_BUFFER)

/-- MycoBarrierLogic.isolate_node: record release time and push the
high-priority drop rule with hard_timeout = RECOVERY_TIME. -/
def isolate_node (st : BarrierState) (dpid current_time : Nat) (src_mac : String) :
    BarrierState × List OFMsg :=
  if (alist_get st.quarantine_list src_mac).isSome then (st, [])
  else
    let release_time := current_time + RECOVERY_TIME
    ({ st with quarantine_list := alist_set st.quarantine_list src_mac release_time },
     [barrier_add_flow dpid 100 (matchEthSrc src_mac) [] none 0 RECOVERY_TIME])

/-- MycoBarrierLogic.check_reintegration.  is_clean is the outcome of the
random.choice draw (True with probability 3/4 in the source).  Returns the
new state and the allowed/blocked Bool result of the Python method. -/
def check_reintegration (st : BarrierState) (current_time : Nat) (is_clean : Bool)
    (src_mac : String) : BarrierState × Bool :=
  match alist_get st.quarantine_list src_mac with
  | none => (st, true)
  | some release_time =>
    if release_time < current_time then
      if src_mac ∉ st.vpa_verification_queue then
        ({ st with vpa_verification_queue := src_mac :: st.vpa_verification_queue }, false)
      else if is_clean then
        ({ st with quarantine_list := alist_del st.quarantine_list src_mac,
                   vpa_verification_queue := st.vpa_verification_queue.erase src_mac },
         true)
      else
        ({ st with quarantine_list := alist_set st.quarantine_list src_mac (release_time + 5) },
         false)
    else (st, false)

/-- One packet-in event delivered to MycoBarrierLogic._packet_in_handler. -/
structure PacketInEv where
  time : Nat
  dpid : Nat
  in_port : Nat
  buffer_id : Nat
  eth_src : String
  eth_dst : String
  ethertype : Nat
  is_clean : Bool
deriving Repr, DecidableEq

/-- STEP 2 of _packet_in_handler: wholesale epoch reset when more than one
second has elapsed, then the per-(dpid, src) post-increment count. -/
def rate_update (st : BarrierState) (ev : PacketInEv) : BarrierState × Nat :=
  let st2 := if 1 < ev.time - st.start_time then
      { st with packet_counts := [], start_time := ev.time }
    else st
  let newc := (alist_get st2.packet_counts (ev.dpid, ev.eth_src)).getD 0 + 1
  ({ st2 with packet_counts := alist_set st2.packet_counts (ev.dpid, ev.eth_src) newc },
   newc)

/-- STEP 3 of _packet_in_handler: L2 learning, flow install, packet-out. -/
def forward_l2 (st : BarrierState) (ev : PacketInEv) : BarrierState × List OFMsg :=
  let st4 := { st with mac_to_port := alist_set st.mac_to_port (ev.dpid, ev.eth_src) ev.in_port }
  let out_port :=
    match alist_get st4.mac_to_port (ev.dpid, ev.eth_dst) with
    | some p => p
    | none => OFPP_FLOOD
  let actions := [OFAction.output out_port]
  if out_port ≠ OFPP_FLOOD then
    if ev.buffer_id ≠ OFP_NO_BUFFER then
      (st4, [barrier_add_flow ev.dpid 1 (matchL2 ev.in_port ev.eth_src ev.eth_dst) actions
               (some ev.buffer_id) 5 0])
    else
      (st4, [barrier_add_flow ev.dpid 1 (matchL2 ev.in_port ev.eth_src ev.eth_dst) actions
               none 5 0,
             OFMsg.packetOut ev.dpid ev.buffer_id ev.in_port actions true])
  else
    (st4, [OFMsg.packetOut ev.dpid ev.buffer_id ev.in_port actions
             (ev.buffer_id == OFP_NO_BUFFER)])

/-- MycoBarrierLogic._packet_in_handler. -/
def barrier_packet_in (st : BarrierState) (ev : PacketInEv) : BarrierState × List OFMsg :=
  if ev.ethertype = ETH_TYPE_LLDP then (st, [])
  else
    let r1 := check_reintegration st ev.time ev.is_clean ev.eth_src
    if r1.2 = false then (r1.1, [])
    else
      let r2 := rate_update r1.1 ev
      if DETECTION_THRESHOLD < r2.2 then isolate_node r2.1 ev.dpid ev.time ev.eth_src
      else forward_l2 r2.1 ev

/-- Run a sequence of packet-in events, collecting all emitted messages. -/
def barrier_run : BarrierState → List PacketInEv → BarrierState × List OFMsg
  | st, [] => (st, [])
  | st, ev :: rest =>
    let r1 := barrier_packet_in st ev
    let r2 := barrier_run r1.1 rest
    (r2.1, r1.2 ++ r2.2)

/-- The post-increment per-epoch count this event would reach for its source
(what self.packet_counts[dpid][src] holds after the increment). -/
def postCount (st : BarrierState) (ev : PacketInEv) : Nat :=
  let pc := if 1 < ev.time - st.start_time then [] else st.packet_counts
  (alist_get pc (ev.dpid, ev.eth_src)).getD 0 + 1

/-- A flow-add whose match is keyed on this source and whose action list is
empty, i.e. a drop rule for the source. -/
def isDropRuleFor (s : String) (m : OFMsg) : Bool :=
  match m with
  | OFMsg.flowAdd _ _ _ mtch actions _ _ _ => mtch.m_eth_src == some s && actions.isEmpty
  | _ => false

/-- Along a run, every counted frame from source s keeps its post-increment
count at or below the detection threshold. -/
def steadySub (s : String) : BarrierState → List PacketInEv → Bool
  | _, [] => true
  | st, ev :: rest =>
    (ev.ethertype == ETH_TYPE_LLDP || !(ev.eth_src == s)
      || decide (postCount st ev ≤ DETECTION_THRESHOLD))
    && steadySub s (barrier_packet_in st ev).1 rest

/-! ## Lemmas about the barrier pipeline -/

theorem check_reintegration_not_quarantined (st : BarrierState) (t : Nat) (c : Bool)
    (src : String) (h : alist_get st.quarantine_list src = none) :
    check_reintegration st t c src = (st, true) := by
  simp [check_reintegration, h]

theorem check_reintegration_allowed_none (st : BarrierState) (t : Nat) (c : Bool)
    (src : String) (h : (check_reintegration st t c src).2 = true) :
    alist_get (check_reintegration st t c src).1.quarantine_list src = none := by
  cases hq : alist_get st.quarantine_list src with
  | none =>
    rw [check_reintegration_not_quarantined st t c src hq]
    exact hq
  | some r =>
    unfold check_reintegration at h ⊢
    by_cases h1 : r < t
    · by_cases h2 : src ∉ st.vpa_verification_queue
      · simp [hq, h1, h2] at h
      · by_cases h3 : c
        · simp [hq, h1, h2, h3, alist_get_del_eq]
        · simp [hq, h1, h2, h3] at h
    · simp [hq, h1] at h

theorem check_reintegration_counts (st : BarrierState) (t : Nat) (c : Bool) (src : String) :
    (check_reintegration st t c src).1.packet_counts = st.packet_counts ∧
    (check_reintegration st t c src).1.start_time = st.start_time := by
  unfold check_reintegration
  split
  · exact ⟨rfl, rfl⟩
  · split_ifs <;> exact ⟨rfl, rfl⟩

theorem check_reintegration_other (st : BarrierState) (t : Nat) (c : Bool) (src s : String)
    (hne : src ≠ s) :
    alist_get (check_reintegration st t c src).1.quarantine_list s =
      alist_get st.quarantine_list s := by
  unfold check_reintegration
  split
  · rfl
  · split_ifs <;>
      simp [alist_get_set_ne _ _ _ _ hne, alist_get_del_ne _ _ _ hne]

theorem rate_update_count (st : BarrierState) (ev : PacketInEv) :
    (rate_update st ev).2 = postCount st ev := by
  simp only [rate_update, postCount]
  split_ifs <;> rfl

theorem rate_update_quarantine (st : BarrierState) (ev : PacketInEv) :
    (rate_update st ev).1.quarantine_list = st.quarantine_list := by
  simp only [rate_update]
  split_ifs <;> rfl

theorem forward_l2_quarantine (st : BarrierState) (ev : PacketInEv) :
    (forward_l2 st ev).1.quarantine_list = st.quarantine_list := by
  simp only [forward_l2]
  split_ifs <;> rfl

theorem forward_l2_no_drop (st : BarrierState) (ev : PacketInEv) (s : String) :
    ∀ m ∈ (forward_l2 st ev).2, isDropRuleFor s m = false := by
  intro m hm
  simp only [forward_l2] at hm
  split_ifs at hm
  · simp only [List.mem_singleton] at hm
    subst hm
    simp [barrier_add_flow, isDropRuleFor]
  · simp only [List.mem_cons, List.not_mem_nil, or_false] at hm
    rcases hm with rfl | rfl <;> simp [barrier_add_flow, isDropRuleFor]
  · simp only [List.mem_singleton] at hm
    subst hm
    simp [isDropRuleFor]

theorem isolate_node_other (st : BarrierState) (d t : Nat) (src s : String) (hne : src ≠ s) :
    alist_get (isolate_node st d t src).1.quarantine_list s =
      alist_get st.quarantine_list s := by
  unfold isolate_node
  split_ifs <;> simp [alist_get_set_ne _ _ _ _ hne]

theorem isolate_node_no_drop_other (st : BarrierState) (d t : Nat) (src s : String)
    (hne : src ≠ s) :
    ∀ m ∈ (isolate_node st d t src).2, isDropRuleFor s m = false := by
  unfold isolate_node
  split_ifs <;> intro m hm
  · simp at hm
  · simp only [List.mem_singleton] at hm
    subst hm
    simp [barrier_add_flow, isDropRuleFor, matchEthSrc, OFMatch.empty, hne]

theorem barrier_packet_in_blocked (st : BarrierState) (ev : PacketInEv)
    (hl : ev.ethertype ≠ ETH_TYPE_LLDP)
    (ha : (check_reintegration st ev.time ev.is_clean ev.eth_src).2 = false) :
    barrier_packet_in st ev =
      ((check_reintegration st ev.time ev.is_clean ev.eth_src).1, []) := by
  unfold barrier_packet_in
  rw [if_neg hl]
  simp [ha]

theorem barrier_packet_in_isolate (st : BarrierState) (ev : PacketInEv)
    (hl : ev.ethertype ≠ ETH_TYPE_LLDP)
    (ha : (check_reintegration st ev.time ev.is_clean ev.eth_src).2 = true)
    (hc : DETECTION_THRESHOLD <
      (rate_update (check_reintegration st ev.time ev.is_clean ev.eth_src).1 ev).2) :
    barrier_packet_in st ev =
      isolate_node (rate_update (check_reintegration st ev.time ev.is_clean ev.eth_src).1 ev).1
        ev.dpid ev.time ev.eth_src := by
  unfold barrier_packet_in
  rw [if_neg hl]
  simp [ha, hc]

theorem barrier_packet_in_forward (st : BarrierState) (ev : PacketInEv)
    (hl : ev.ethertype ≠ ETH_TYPE_LLDP)
    (ha : (check_reintegration st ev.time ev.is_clean ev.eth_src).2 = true)
    (hc : ¬ DETECTION_THRESHOLD <
      (rate_update (check_reintegration st ev.time ev.is_clean ev.eth_src).1 ev).2) :
    barrier_packet_in st ev =
      forward_l2 (rate_update (check_reintegration st ev.time ev.is_clean ev.eth_src).1 ev).1
        ev := by
  unfold barrier_packet_in
  rw [if_neg hl]
  simp [ha, hc]

/-- Single-step no-false-positive lemma: a source with no quarantine record whose
hypothetical post-increment count stays at or below the threshold is neither
quarantined nor targeted by a drop rule by this step. -/
theorem barrier_step_no_fp (st : BarrierState) (ev : PacketInEv) (s : String)
    (h0 : alist_get st.quarantine_list s = none)
    (hsub : ev.ethertype ≠ ETH_TYPE_LLDP → ev.eth_src = s →
      postCount st ev ≤ DETECTION_THRESHOLD) :
    alist_get (barrier_packet_in st ev).1.quarantine_list s = none ∧
    ∀ m ∈ (barrier_packet_in st ev).2, isDropRuleFor s m = false := by
  by_cases hl : ev.ethertype = ETH_TYPE_LLDP
  · unfold barrier_packet_in
    rw [if_pos hl]
    exact ⟨h0, by intro m hm; simp at hm⟩
  · by_cases hsrc : ev.eth_src = s
    · have hid := check_reintegration_not_quarantined st ev.time ev.is_clean ev.eth_src
        (hsrc ▸ h0)
      have ha : (check_reintegration st ev.time ev.is_clean ev.eth_src).2 = true := by
        rw [hid]
      have hc : ¬ DETECTION_THRESHOLD <
          (rate_update (check_reintegration st ev.time ev.is_clean ev.eth_src).1 ev).2 := by
        rw [hid]
        rw [rate_update_count]
        exact Nat.not_lt.mpr (hsub hl hsrc)
      rw [barrier_packet_in_forward st ev hl ha hc]
      refine ⟨?_, forward_l2_no_drop _ ev s⟩
      rw [forward_l2_quarantine, rate_update_quarantine, hid]
      exact h0
    · have hne : ev.eth_src ≠ s := hsrc
      have h1 : alist_get (check_reintegration st ev.time ev.is_clean ev.eth_src).1.quarantine_list s
          = none := by
        rw [check_reintegration_other st ev.time ev.is_clean ev.eth_src s hne]
        exact h0
      cases hab : (check_reintegration st ev.time ev.is_clean ev.eth_src).2 with
      | false =>
        rw [barrier_packet_in_blocked st ev hl hab]
        exact ⟨h1, by intro m hm; simp at hm⟩
      | true =>
        by_cases hc : DETECTION_THRESHOLD <
            (rate_update (check_reintegration st ev.time ev.is_clean ev.eth_src).1 ev).2
        · rw [barrier_packet_in_isolate st ev hl hab hc]
          refine ⟨?_, isolate_node_no_drop_other _ _ _ _ _ hne⟩
          rw [isolate_node_other _ _ _ _ _ hne, rate_update_quarantine]
          exact h1
        · rw [barrier_packet_in_forward st ev hl hab hc]
          refine ⟨?_, forward_l2_no_drop _ ev s⟩
          rw [forward_l2_quarantine, rate_update_quarantine]
          exact h1

/-! ## Claims C2, C3, C5 (myco_barrier_logic.py) -/

/-- Claim C2: when a frame pushes the per-(switch, source) post-increment count
over the detection threshold within the current 1-second epoch (and the frame
passed the quarantine screen), the handler isolates the source in that same
step: a quarantine record with release time = now + RECOVERY_TIME is created,
and the only emitted message is a priority-100 drop rule matching that source
with hard_timeout exactly RECOVERY_TIME — in particular no packet-out, so the
frame is not forwarded. -/
theorem C2_isolated_within_epoch (st : BarrierState) (ev : PacketInEv)
    (hl : ev.ethertype ≠ ETH_TYPE_LLDP)
    (ha : (check_reintegration st ev.time ev.is_clean ev.eth_src).2 = true)
    (hx : DETECTION_THRESHOLD < postCount st ev) :
    alist_get (barrier_packet_in st ev).1.quarantine_list ev.eth_src =
      some (ev.time + RECOVERY_TIME) ∧
    (barrier_packet_in st ev).2 =
      [OFMsg.flowAdd ev.dpid 0 100 (matchEthSrc ev.eth_src) [] 0 RECOVERY_TIME
        OFP_NO_BUFFER] := by
  have hpc : postCount (check_reintegration st ev.time ev.is_clean ev.eth_src).1 ev
      = postCount st ev := by
    unfold postCount
    rw [(check_reintegration_counts st ev.time ev.is_clean ev.eth_src).1,
        (check_reintegration_counts st ev.time ev.is_clean ev.eth_src).2]
  have hc : DETECTION_THRESHOLD <
      (rate_update (check_reintegration st ev.time ev.is_clean ev.eth_src).1 ev).2 := by
    rw [rate_update_count, hpc]
    exact hx
  rw [barrier_packet_in_isolate st ev hl ha hc]
  have hq1 : alist_get
      (rate_update (check_reintegration st ev.time ev.is_clean ev.eth_src).1 ev).1.quarantine_list
      ev.eth_src = none := by
    rw [rate_update_quarantine]
    exact check_reintegration_allowed_none st ev.time ev.is_clean ev.eth_src ha
  unfold isolate_node
  rw [hq1]
  simp [barrier_add_flow, alist_get_set_eq]

def c2_state : BarrierState := ⟨[], [((1, "aa"), 30)], [], [], 5⟩

def c2_ev : PacketInEv := ⟨6, 1, 2, OFP_NO_BUFFER, "aa", "bb", ETH_TYPE_IP, true⟩

/-- Witness for C2 at a concrete state: source aa already at 30 packets in the
current epoch sends one more at t=6 and is quarantined until t=16. -/
theorem C2_isolated_within_epoch_witness :
    alist_get (barrier_packet_in c2_state c2_ev).1.quarantine_list "aa" = some 16 ∧
    (barrier_packet_in c2_state c2_ev).2 =
      [OFMsg.flowAdd 1 0 100 (matchEthSrc "aa") [] 0 RECOVERY_TIME OFP_NO_BUFFER] := by
  have h := C2_isolated_within_epoch c2_state c2_ev (by decide) (by decide) (by decide)
  exact ⟨h.1, h.2⟩

/-- Claim C3: a source with no quarantine record whose post-increment per-epoch
packet count stays at or below the detection threshold at every counted frame
is never quarantined, and no drop rule keyed on it is ever emitted, over any
run of the packet-in handler. -/
theorem C3_no_false_positive (st : BarrierState) (evs : List PacketInEv) (s : String)
    (h0 : alist_get st.quarantine_list s = none)
    (hsub : steadySub s st evs = true) :
    alist_get (barrier_run st evs).1.quarantine_list s = none ∧
    ∀ m ∈ (barrier_run st evs).2, isDropRuleFor s m = false := by
  induction evs generalizing st with
  | nil =>
    exact ⟨h0, by intro m hm; simp [barrier_run] at hm⟩
  | cons ev rest ih =>
    unfold steadySub at hsub
    rw [Bool.and_eq_true] at hsub
    obtain ⟨hhead, htail⟩ := hsub
    have hcond : ev.ethertype ≠ ETH_TYPE_LLDP → ev.eth_src = s →
        postCount st ev ≤ DETECTION_THRESHOLD := by
      intro hl hsrc
      simp only [Bool.or_eq_true, beq_iff_eq, Bool.not_eq_true', beq_eq_false_iff_ne,
        decide_eq_true_eq] at hhead
      rcases hhead with (h | h) | h
      · exact absurd h hl
      · exact absurd hsrc h
      · exact h
    have hstep := barrier_step_no_fp st ev s h0 hcond
    have hrec := ih (barrier_packet_in st ev).1 hstep.1 htail
    unfold barrier_run
    refine ⟨hrec.1, ?_⟩
    intro m hm
    rw [List.mem_append] at hm
    rcases hm with hm | hm
    · exact hstep.2 m hm
    · exact hrec.2 m hm

def c3_state : BarrierState := ⟨[], [], [], [], 0⟩

def c3_evs : List PacketInEv :=
  [⟨1, 1, 2, OFP_NO_BUFFER, "aa", "bb", ETH_TYPE_IP, true⟩,
   ⟨1, 1, 2, OFP_NO_BUFFER, "aa", "bb", ETH_TYPE_IP, true⟩]

/-- Witness for C3: two sub-threshold frames from source aa leave it
unquarantined. -/
theorem C3_no_false_positive_witness :
    alist_get (barrier_run c3_state c3_evs).1.quarantine_list "aa" = none := by
  exact (C3_no_false_positive c3_state c3_evs "aa" (by decide) (by decide)).1

def c5_state : BarrierState := ⟨[], [], [("aa", 10)], ["aa"], 0⟩

/-- Claim C5 counterexample: after a failed verification trial the source is
NOT removed from the verification-pending queue, contradicting the claim that
the verification-pending flag is cleared; the release time is extended to 15
and the record stays. -/
theorem C5_counterexample :
    (check_reintegration c5_state 11 false "aa").1.quarantine_list = [("aa", 15)] ∧
    "aa" ∈ (check_reintegration c5_state 11 false "aa").1.vpa_verification_queue := by
  decide

/-- Claim C5 as amended: for a quarantined source whose release time has
passed and whose verification-pending flag is set, a failed trial extends the
release time by exactly 5 from the previous release time, keeps the record,
and leaves the verification-pending flag SET (which is what makes the trial
branch re-run directly at the next check once the extended release time has
passed); a successful trial removes the record entirely. -/
theorem C5_reintegration_amended (st : BarrierState) (src : String) (r t : Nat)
    (clean : Bool)
    (hq : alist_get st.quarantine_list src = some r)
    (ht : r < t)
    (hv : src ∈ st.vpa_verification_queue) :
    (clean = false →
      (check_reintegration st t clean src).2 = false ∧
      alist_get (check_reintegration st t clean src).1.quarantine_list src = some (r + 5) ∧
      src ∈ (check_reintegration st t clean src).1.vpa_verification_queue) ∧
    (clean = true →
      (check_reintegration st t clean src).2 = true ∧
      alist_get (check_reintegration st t clean src).1.quarantine_list src = none) := by
  have hnv : ¬ src ∉ st.vpa_verification_queue := by simp [hv]
  constructor
  · intro hcl
    subst hcl
    unfold check_reintegration
    simp [hq, ht, hnv, hv, alist_get_set_eq]
  · intro hcl
    subst hcl
    unfold check_reintegration
    simp [hq, ht, hnv, alist_get_del_eq]

/-- Witness for the amended C5 at the concrete counterexample state. -/
theorem C5_reintegration_amended_witness :
    alist_get (check_reintegration c5_state 11 false "aa").1.quarantine_list "aa"
      = some 15 := by
  have h := C5_reintegration_amended c5_state "aa" 10 11 false (by decide) (by decide)
    (by decide)
  exact (h.1 rfl).2.1

/-! ## Model of myco_controller_gpt.py (MycoBarrierController + REST) -/

/-- One entry of mapping["hosts"] (ip, mac and attaching switch dpid). -/
structure Host where
  ip : String
  mac : String
  dpid : Nat
deriving Repr, DecidableEq

/-- One entry of mapping["proxies"]. -/
structure Proxy where
  ip : String
  mac : String
  dpid : Nat
  port : Nat
deriving Repr, DecidableEq

/-- The self.active_event dict.  For myco_scout the proxy fields keep their
initialised empty values ("" strings and port 0 standing for the Python ""). -/
structure MycoEvent where
  strategy : String
  target_ip : String
  target_mac : String
  target_dpid : Nat
  proxy_ip : String
  proxy_mac : String
  proxy_port : Nat
  duration_s : Rat
  cookie : Nat
deriving Repr, DecidableEq

/-- Mutable state of MycoBarrierController.  datapaths keeps only the dpids of
connected switches (the datapath handles themselves are message sinks in this
embedding); event_log models the append-only events.csv rows. -/
structure GPTState where
  mac_to_port : List ((Nat × String) × Nat)
  datapaths : List Nat
  host_by_ip : List (String × Host)
  proxies_by_dpid : List (Nat × List Proxy)
  active_event : Option MycoEvent
  echo_sent : List ((Nat × Nat) × Nat)
  xid : Nat
  event_log : List (String × MycoEvent)
deriving Repr, DecidableEq

/-- MycoBarrierController._flow_with_cookie (no buffer argument, hence
OFP_NO_BUFFER; idle_timeout 0). -/
def flow_with_cookie (dpid cookie priority : Nat) (mtch : OFMatch)
    (actions : List OFAction) (hard : Nat) : OFMsg :=
  OFMsg.flowAdd dpid cookie priority mtch actions 0 hard OFP_NO_BUFFER

/-- MycoBarrierController._myco_scout_isolate: two drop rules per connected
switch, tagged with the episode cookie. -/
def myco_scout_isolate (datapaths : List Nat) (e : MycoEvent) : List OFMsg :=
  datapaths.flatMap (fun d =>
    [flow_with_cookie d e.cookie 300 (matchIpDst e.target_ip) [] 0,
     flow_with_cookie d e.cookie 300 (matchIpSrc e.target_ip) [] 0])

/-- MycoBarrierController._myco_box_quarantine: a single inbound-rewrite rule
on the edge switch of the target.  The source also builds match_out and an empty
actions_out list but deliberately never installs them (the comment in the
source warns that an empty action list means drop), so no second rule is
emitted. -/
def myco_box_quarantine (datapaths : List Nat) (e : MycoEvent) : List OFMsg :=
  if e.target_dpid ∈ datapaths then
    [flow_with_cookie e.target_dpid e.cookie 320 (matchIpDst e.target_ip)
      [OFAction.setIpv4Dst e.proxy_ip, OFAction.setEthDst e.proxy_mac,
       OFAction.output e.proxy_port] 0]
  else []

/-- MycoBarrierController._myco_swap_replace: inbound rewrite to the proxy and
outbound rewrite back to the target identity (resubmitted to the controller). -/
def myco_swap_replace (datapaths : List Nat) (e : MycoEvent) : List OFMsg :=
  if e.target_dpid ∈ datapaths then
    [flow_with_cookie e.target_dpid e.cookie 340 (matchIpDst e.target_ip)
      [OFAction.setIpv4Dst e.proxy_ip, OFAction.setEthDst e.proxy_mac,
       OFAction.output e.proxy_port] 0,
     flow_with_cookie e.target_dpid e.cookie 340
      (matchInPortIpSrc e.proxy_port e.proxy_ip)
      [OFAction.setIpv4Src e.target_ip, OFAction.setEthSrc e.target_mac,
       OFAction.output OFPP_CONTROLLER] 0]
  else []

/-- MycoBarrierController._apply_strategy_start. -/
def apply_strategy_start (datapaths : List Nat) (e : MycoEvent) : List OFMsg :=
  if e.strategy = "myco_scout" then myco_scout_isolate datapaths e
  else if e.strategy = "myco_box" then myco_box_quarantine datapaths e
  else if e.strategy = "myco_swap" then myco_swap_replace datapaths e
  else []

/-- MycoBarrierController._cleanup_event: one cookie-masked delete per
connected switch. -/
def cleanup_event (datapaths : List Nat) (cookie : Nat) : List OFMsg :=
  datapaths.map (fun d => OFMsg.flowDelete d cookie FULL_COOKIE_MASK)

/-- Result of MycoBarrierController.trigger_event: the state after the call,
the protocol messages sent, and the (ok, msg) pair the method returns. -/
structure TriggerResult where
  state : GPTState
  msgs : List OFMsg
  ok : Bool
  msg : String
deriving Repr, DecidableEq

/-- The accepted path of trigger_event: record the episode, log the start row,
and run the strategy start routine (the spawned auto-end timer is outside this
per-call step). -/
def start_event (st : GPTState) (e : MycoEvent) : TriggerResult :=
  ⟨{ st with active_event := some e, event_log := st.event_log ++ [("start", e)] },
   apply_strategy_start st.datapaths e, true,
   "Event started strategy=" ++ e.strategy ++ " target=" ++ e.target_ip⟩

/-- MycoBarrierController.trigger_event.  now_ms is int(time.time()*1000),
used as the episode cookie.  The body from the active-event test onward runs
under self.event_lock in the source; this whole function is a single atomic
step of the model. -/
def trigger_event (st : GPTState) (strategy target_ip : String) (duration_s : Rat)
    (now_ms : Nat) : TriggerResult :=
  match alist_get st.host_by_ip target_ip with
  | none => ⟨st, [], false, "Unknown target_ip: " ++ target_ip⟩
  | some target =>
    match st.active_event with
    | some _ => ⟨st, [], false, "Another event is active; wait for it to finish."⟩
    | none =>
      if strategy = "myco_box" ∨ strategy = "myco_swap" then
        match (alist_get st.proxies_by_dpid target.dpid).getD [] with
        | [] => ⟨st, [], false,
            "No proxy attached to target edge switch dpid=" ++ toString target.dpid⟩
        | p :: _ =>
          start_event st
            ⟨strategy, target_ip, target.mac, target.dpid, p.ip, p.mac, p.port,
             duration_s, now_ms⟩
      else
        start_event st
          ⟨strategy, target_ip, target.mac, target.dpid, "", "", 0, duration_s, now_ms⟩

/-! ### REST endpoint (MycoRestController.post_event) -/

/-- A JSON value as it arrives in the request body. -/
inductive JVal
  | jstr (s : String)
  | jnum (q : Rat)
  | jbool (b : Bool)
  | jnull
deriving Repr, DecidableEq

/-- Python str() applied to a JSON value. -/
def pyStr : JVal → String
  | JVal.jstr s => s
  | JVal.jnum q => toString q
  | JVal.jbool b => if b then "True" else "False"
  | JVal.jnull => "None"

/-- Digit-wise parse of a decimal-integer string. -/
def natOfDigits : List Char → Nat → Option Nat
  | [], acc => some acc
  | c :: cs, acc =>
    if 48 ≤ c.toNat ∧ c.toNat ≤ 57 then natOfDigits cs (acc * 10 + (c.toNat - 48))
    else none

def decStrToNat (s : String) : Option Nat :=
  match s.data with
  | [] => none
  | c :: cs => natOfDigits (c :: cs) 0

/-- Python float() applied to a JSON value: numbers and booleans convert,
None raises TypeError, and strings convert only when numeric (modelled for
decimal-integer strings, which is exact on every input the theorems below
are instantiated at) — otherwise ValueError is raised. -/
def pyFloat : JVal → Except String Rat
  | JVal.jnum q => Except.ok q
  | JVal.jbool b => Except.ok (if b then 1 else 0)
  | JVal.jstr s =>
    match decStrToNat s with
    | some n => Except.ok n
    | none => Except.error "ValueError: could not convert string to float"
  | JVal.jnull => Except.error "TypeError: float() argument must be a string or a number"

/-- The parsed request body: each field is absent or a JSON value
(body.get with a default). -/
structure EventRequest where
  strategy : Option JVal
  target_ip : Option JVal
  duration_s : Option JVal
deriving Repr, DecidableEq

structure HttpResponse where
  status : Nat
  body : String
deriving Repr, DecidableEq

structure PostResult where
  state : GPTState
  msgs : List OFMsg
  response : HttpResponse
deriving Repr, DecidableEq

/-- Body of the 200 response, json.dumps of ok/msg. -/
def jsonOkBody (msg : String) : String :=
  "\x7b\"ok\": true, \"msg\": \"" ++ msg ++ "\"\x7d"

/-- Body of MycoRestController.post_event after the three fields have been
extracted and the duration converted: the validation checks in source order,
then the trigger_event call and the 200/400 response. -/
def post_checks (st : GPTState) (strategy target_ip : String) (duration_s : Rat)
    (now_ms : Nat) : PostResult :=
  if ¬ (strategy = "myco_scout" ∨ strategy = "myco_box" ∨ strategy = "myco_swap") then
    ⟨st, [], ⟨400, "Invalid strategy"⟩⟩
  else if target_ip = "" then
    ⟨st, [], ⟨400, "Missing target_ip"⟩⟩
  else if duration_s ≤ 0 ∨ 120 < duration_s then
    ⟨st, [], ⟨400, "Invalid duration_s"⟩⟩
  else
    if (trigger_event st strategy target_ip duration_s now_ms).ok then
      ⟨(trigger_event st strategy target_ip duration_s now_ms).state,
       (trigger_event st strategy target_ip duration_s now_ms).msgs,
       ⟨200, jsonOkBody (trigger_event st strategy target_ip duration_s now_ms).msg⟩⟩
    else
      ⟨(trigger_event st strategy target_ip duration_s now_ms).state,
       (trigger_event st strategy target_ip duration_s now_ms).msgs,
       ⟨400, (trigger_event st strategy target_ip duration_s now_ms).msg⟩⟩

/-- MycoRestController.post_event.  An Except.error result models a Python
exception escaping the handler (the float() call on duration_s is outside any
try block in the source, so its ValueError/TypeError propagates to the WSGI
layer). -/
def post_event (st : GPTState) (req : EventRequest) (now_ms : Nat) :
    Except String PostResult :=
  let strategy := (pyStr (req.strategy.getD (JVal.jstr ""))).trim.toLower
  let target_ip := (pyStr (req.target_ip.getD (JVal.jstr ""))).trim
  match pyFloat (req.duration_s.getD (JVal.jnum 8)) with
  | Except.error e => Except.error e
  | Except.ok duration_s =>
    Except.ok (post_checks st strategy target_ip duration_s now_ms)

/-! ### Latency monitor (echo RTT) -/

/-- MycoBarrierController._send_echo: allocate the next xid, stamp the pending
table and emit the request. -/
def send_echo (st : GPTState) (now dpid : Nat) : GPTState × List OFMsg :=
  ({ st with xid := st.xid + 1, echo_sent := alist_set st.echo_sent (dpid, st.xid) now },
   [OFMsg.echoRequest dpid st.xid])

/-- One pass of MycoBarrierController._echo_loop over the connected switches. -/
def echo_loop_tick (st : GPTState) (now : Nat) : GPTState × List OFMsg :=
  List.foldl (fun acc d =>
      let r := send_echo acc.1 now d
      (r.1, acc.2 ++ r.2))
    (st, ([] : List OFMsg)) st.datapaths

/-- A row of ctrl_latency.csv (switch id and round-trip time). -/
structure LatencySample where
  s_dpid : Nat
  rtt : Nat
deriving Repr, DecidableEq

/-- MycoBarrierController.echo_reply.  data none models an undecodable echo
payload (the int() call fails and the handler returns); a matching pending
entry is popped and a latency sample appended. -/
def echo_reply (st : GPTState) (now dpid : Nat) (data : Option Nat) :
    GPTState × List LatencySample :=
  match data with
  | none => (st, [])
  | some xid =>
    match alist_get st.echo_sent (dpid, xid) with
    | none => (st, [])
    | some ts =>
      ({ st with echo_sent := alist_del st.echo_sent (dpid, xid) },
       [⟨dpid, now - ts⟩])

/-! ### ARP steering and packet-in -/

/-- MycoBarrierController._handle_arp.  The reply-building branch evaluates
ether.ETH_TYPE_ARP, but the module never imports ether
(myco_controller_gpt.py line 247), so reaching that branch raises NameError
before any state is touched or any message is sent; the model returns the
corresponding Except.error. -/
def handle_arp (st : GPTState) (dpid in_port : Nat) (eth_src : String)
    (arp_opcode : Nat) (arp_src_mac arp_src_ip arp_dst_ip : String) :
    Except String (List OFMsg) :=
  if arp_opcode ≠ ARP_REQUEST then Except.ok []
  else
    match st.active_event with
    | none => Except.ok []
    | some e =>
      if arp_dst_ip ≠ e.target_ip then Except.ok []
      else if e.proxy_mac = "" then Except.ok []
      else Except.error "NameError: name ether is not defined"

/-- Payload of a packet-in frame as far as the handler inspects it. -/
inductive Payload
  | arpPayload (opcode : Nat) (src_mac src_ip dst_ip : String)
  | plain
deriving Repr, DecidableEq

structure EthFrame where
  eth_src : String
  eth_dst : String
  payload : Payload
deriving Repr, DecidableEq

/-- MycoBarrierController.packet_in.  frame none models msg.data without an
ethernet header (get_protocol returns None). -/
def gpt_packet_in (st : GPTState) (dpid in_port buffer_id : Nat)
    (frame : Option EthFrame) : Except String (GPTState × List OFMsg) :=
  match frame with
  | none => Except.ok (st, [])
  | some f =>
    match f.payload with
    | Payload.arpPayload op smac sip dip =>
      match handle_arp st dpid in_port f.eth_src op smac sip dip with
      | Except.error e => Except.error e
      | Except.ok ms => Except.ok (st, ms)
    | Payload.plain =>
      let st1 := { st with
        mac_to_port := alist_set st.mac_to_port (dpid, f.eth_src) in_port }
      let out_port :=
        match alist_get st1.mac_to_port (dpid, f.eth_dst) with
        | some p => p
        | none => OFPP_FLOOD
      let actions := [OFAction.output out_port]
      let adds :=
        if out_port ≠ OFPP_FLOOD then
          [OFMsg.flowAdd dpid 0 10 (matchL2 in_port f.eth_src f.eth_dst) actions 30 0
            OFP_NO_BUFFER]
        else []
      Except.ok (st1,
        adds ++ [OFMsg.packetOut dpid buffer_id in_port actions
                  (buffer_id == OFP_NO_BUFFER)])

/-! ### Switch flow tables -/

/-- An installed flow rule as the delete semantics sees it. -/
structure FlowRule where
  cookie : Nat
  priority : Nat
  mtch : OFMatch
  actions : List OFAction
  idle : Nat
  hard : Nat
deriving Repr, DecidableEq

/-- OpenFlow cookie-masked delete predicate: an entry is deleted when its
cookie agrees with the requested cookie on the masked bits. -/
def deleteMatches (cookie cookie_mask : Nat) (r : FlowRule) : Bool :=
  (r.cookie &&& cookie_mask) == (cookie &&& cookie_mask)

/-- Effect of one controller message on the flow table of switch dpid. -/
def applyMsgToTable (dpid : Nat) (tbl : List FlowRule) (m : OFMsg) : List FlowRule :=
  match m with
  | OFMsg.flowAdd d cookie priority mtch actions idle hard _ =>
    if d = dpid then ⟨cookie, priority, mtch, actions, idle, hard⟩ :: tbl else tbl
  | OFMsg.flowDelete d cookie cookie_mask =>
    if d = dpid then tbl.filter (fun r => !(deleteMatches cookie cookie_mask r)) else tbl
  | _ => tbl

def applyMsgsToTable (dpid : Nat) (tbl : List FlowRule) (ms : List OFMsg) :
    List FlowRule :=
  ms.foldl (applyMsgToTable dpid) tbl

/-- The cookie a message stamps on an installed rule, if it installs one. -/
def msgCookie : OFMsg → Option Nat
  | OFMsg.flowAdd _ cookie _ _ _ _ _ _ => some cookie
  | _ => none

/-- An installed rule whose action list is empty (drop semantics). -/
def hasEmptyActionAdd : OFMsg → Bool
  | OFMsg.flowAdd _ _ _ _ actions _ _ _ => actions.isEmpty
  | _ => false

/-! ## Claim C1 (trigger_event single-flight) -/

/-- Claim C1: while an episode is active, every trigger_event call is declined
(ok = false with a message), sends no protocol message, and leaves the whole
controller state unchanged; the check-and-set runs as one atomic step (the
source holds self.event_lock across it, the model makes the call a single
transition). -/
theorem C1_single_flight (st : GPTState) (e : MycoEvent) (strategy target_ip : String)
    (duration_s : Rat) (now_ms : Nat) (h : st.active_event = some e) :
    (trigger_event st strategy target_ip duration_s now_ms).state = st ∧
    (trigger_event st strategy target_ip duration_s now_ms).ok = false ∧
    (trigger_event st strategy target_ip duration_s now_ms).msgs = [] := by
  unfold trigger_event
  cases hh : alist_get st.host_by_ip target_ip with
  | none => exact ⟨rfl, rfl, rfl⟩
  | some target =>
    rw [h]
    exact ⟨rfl, rfl, rfl⟩

def c1_event : MycoEvent :=
  ⟨"myco_scout", "10.0.0.7", "00:00:00:00:00:07", 1, "", "", 0, 8, 1000⟩

def c1_state : GPTState :=
  ⟨[], [1], [("10.0.0.7", ⟨"10.0.0.7", "00:00:00:00:00:07", 1⟩)], [],
   some c1_event, [], 1, []⟩

/-- Witness for C1: with the scout episode active, a second trigger for a
known target is declined and the state is untouched. -/
theorem C1_single_flight_witness :
    (trigger_event c1_state "myco_scout" "10.0.0.7" 8 2000).ok = false ∧
    (trigger_event c1_state "myco_scout" "10.0.0.7" 8 2000).state = c1_state := by
  have h := C1_single_flight c1_state c1_event "myco_scout" "10.0.0.7" 8 2000 rfl
  exact ⟨h.2.1, h.1⟩

/-! ## Claim C4 (pending echo probes) -/

theorem send_echo_pending_mono (st : GPTState) (now d : Nat) (k : Nat × Nat)
    (h : (alist_get st.echo_sent k).isSome = true) :
    (alist_get (send_echo st now d).1.echo_sent k).isSome = true := by
  unfold send_echo
  by_cases hk : (d, st.xid) = k
  · simp [hk, alist_get_set_eq]
  · simp only []
    rw [alist_get_set_ne _ _ _ _ hk]
    exact h

theorem echo_loop_tick_pending (st : GPTState) (now : Nat) (k : Nat × Nat)
    (h : (alist_get st.echo_sent k).isSome = true) :
    (alist_get (echo_loop_tick st now).1.echo_sent k).isSome = true := by
  unfold echo_loop_tick
  suffices H : ∀ (ds : List Nat) (acc : GPTState × List OFMsg),
      (alist_get acc.1.echo_sent k).isSome = true →
      (alist_get (List.foldl (fun acc d =>
          let r := send_echo acc.1 now d
          (r.1, acc.2 ++ r.2)) acc ds).1.echo_sent k).isSome = true by
    exact H st.datapaths (st, []) h
  intro ds
  induction ds with
  | nil => intro acc hacc; exact hacc
  | cons d rest ih =>
    intro acc hacc
    rw [List.foldl_cons]
    exact ih _ (send_echo_pending_mono acc.1 now d k hacc)

def c4_s0 : GPTState := ⟨[], [1], [], [], none, [], 1, []⟩

def c4_s1 : GPTState := (echo_loop_tick c4_s0 0).1

def c4_s2 : GPTState := (echo_loop_tick c4_s1 1).1

def c4_s3 : GPTState := (echo_loop_tick c4_s2 2).1

def c4_s4 : GPTState := (echo_reply c4_s3 5 1 (some 2)).1

/-- Claim C4 counterexample: probes (1,1) and (1,3) never get a reply, yet
after three probe rounds and a reply for probe 2 they are still pending — no
code path ever evicts an unmatched entry, so the table grows under loss
(here to the two leaked entries), contradicting the claimed eviction. -/
theorem C4_counterexample :
    alist_get c4_s4.echo_sent (1, 1) = some 0 ∧
    alist_get c4_s4.echo_sent (1, 3) = some 2 ∧
    c4_s4.echo_sent.length = 2 := by
  decide

/-- Claim C4 as amended: a pending probe entry is removed only by its matching
echo reply, which records the round-trip sample; probe-loop ticks and
non-matching replies never evict it, so the pending table is NOT bounded
under probe loss. -/
theorem C4_pending_eviction_amended (st : GPTState) (k : Nat × Nat) (now d : Nat)
    (data : Option Nat)
    (h : (alist_get st.echo_sent k).isSome = true) :
    (alist_get (echo_loop_tick st now).1.echo_sent k).isSome = true ∧
    ((∀ xid, data = some xid → (d, xid) ≠ k) →
      alist_get (echo_reply st now d data).1.echo_sent k = alist_get st.echo_sent k) ∧
    (∀ xid ts, data = some xid → alist_get st.echo_sent (d, xid) = some ts →
      alist_get (echo_reply st now d data).1.echo_sent (d, xid) = none ∧
      (echo_reply st now d data).2 = [⟨d, now - ts⟩]) := by
  refine ⟨echo_loop_tick_pending st now k h, ?_, ?_⟩
  · intro hne
    cases data with
    | none => rfl
    | some xid =>
      cases hg : alist_get st.echo_sent (d, xid) with
      | none => simp [echo_reply, hg]
      | some ts =>
        simp only [echo_reply, hg]
        exact alist_get_del_ne _ _ _ (hne xid rfl)
  · intro xid ts hdata hget
    subst hdata
    refine ⟨?_, ?_⟩
    · simp only [echo_reply, hget]
      exact alist_get_del_eq _ _
    · simp [echo_reply, hget]

/-- Witness for the amended C4: the entry pending in c4_s1 survives another
probe round. -/
theorem C4_pending_eviction_amended_witness :
    (alist_get (echo_loop_tick c4_s1 1).1.echo_sent (1, 1)).isSome = true := by
  exact (C4_pending_eviction_amended c4_s1 (1, 1) 1 1 none (by decide)).1

/-! ## Claim C6 (trigger validation) -/

theorem str_append_ne_empty (s t : String) (h : s.length ≠ 0) : s ++ t ≠ "" := by
  intro he
  have hl := congrArg String.length he
  rw [String.length_append] at hl
  have hz : ("" : String).length = 0 := rfl
  rw [hz] at hl
  omega

theorem trigger_event_unknown (st : GPTState) (strategy target_ip : String)
    (duration_s : Rat) (now_ms : Nat)
    (hh : alist_get st.host_by_ip target_ip = none) :
    trigger_event st strategy target_ip duration_s now_ms =
      ⟨st, [], false, "Unknown target_ip: " ++ target_ip⟩ := by
  unfold trigger_event
  rw [hh]

theorem trigger_event_busy (st : GPTState) (target : Host) (e : MycoEvent)
    (strategy target_ip : String) (duration_s : Rat) (now_ms : Nat)
    (hh : alist_get st.host_by_ip target_ip = some target)
    (ha : st.active_event = some e) :
    trigger_event st strategy target_ip duration_s now_ms =
      ⟨st, [], false, "Another event is active; wait for it to finish."⟩ := by
  unfold trigger_event
  rw [hh, ha]

theorem trigger_event_no_proxy (st : GPTState) (target : Host)
    (strategy target_ip : String) (duration_s : Rat) (now_ms : Nat)
    (hh : alist_get st.host_by_ip target_ip = some target)
    (ha : st.active_event = none)
    (hs : strategy = "myco_box" ∨ strategy = "myco_swap")
    (hp : (alist_get st.proxies_by_dpid target.dpid).getD [] = []) :
    trigger_event st strategy target_ip duration_s now_ms =
      ⟨st, [], false,
       "No proxy attached to target edge switch dpid=" ++ toString target.dpid⟩ := by
  unfold trigger_event
  simp only [hh, ha]
  rw [if_pos hs, hp]

theorem trigger_event_start_proxy (st : GPTState) (target : Host) (p : Proxy)
    (ps : List Proxy) (strategy target_ip : String) (duration_s : Rat) (now_ms : Nat)
    (hh : alist_get st.host_by_ip target_ip = some target)
    (ha : st.active_event = none)
    (hs : strategy = "myco_box" ∨ strategy = "myco_swap")
    (hp : (alist_get st.proxies_by_dpid target.dpid).getD [] = p :: ps) :
    trigger_event st strategy target_ip duration_s now_ms =
      start_event st
        ⟨strategy, target_ip, target.mac, target.dpid, p.ip, p.mac, p.port,
         duration_s, now_ms⟩ := by
  unfold trigger_event
  simp only [hh, ha]
  rw [if_pos hs, hp]

theorem trigger_event_start_plain (st : GPTState) (target : Host)
    (strategy target_ip : String) (duration_s : Rat) (now_ms : Nat)
    (hh : alist_get st.host_by_ip target_ip = some target)
    (ha : st.active_event = none)
    (hs : ¬ (strategy = "myco_box" ∨ strategy = "myco_swap")) :
    trigger_event st strategy target_ip duration_s now_ms =
      start_event st
        ⟨strategy, target_ip, target.mac, target.dpid, "", "", 0,
         duration_s, now_ms⟩ := by
  unfold trigger_event
  simp only [hh, ha]
  rw [if_neg hs]

/-- Every declined trigger_event call leaves the state unchanged, emits no
protocol message, and carries a nonempty human-readable reason. -/
theorem trigger_event_declined (st : GPTState) (strategy target_ip : String)
    (duration_s : Rat) (now_ms : Nat)
    (h : (trigger_event st strategy target_ip duration_s now_ms).ok = false) :
    (trigger_event st strategy target_ip duration_s now_ms).state = st ∧
    (trigger_event st strategy target_ip duration_s now_ms).msgs = [] ∧
    (trigger_event st strategy target_ip duration_s now_ms).msg ≠ "" := by
  cases hh : alist_get st.host_by_ip target_ip with
  | none =>
    rw [trigger_event_unknown st strategy target_ip duration_s now_ms hh]
    exact ⟨rfl, rfl, str_append_ne_empty _ _ (by decide)⟩
  | some target =>
    cases ha : st.active_event with
    | some e =>
      rw [trigger_event_busy st target e strategy target_ip duration_s now_ms hh ha]
      refine ⟨rfl, rfl, ?_⟩
      exact (show ("Another event is active; wait for it to finish." : String) ≠ ""
        by decide)
    | none =>
      by_cases hs : strategy = "myco_box" ∨ strategy = "myco_swap"
      · cases hp : (alist_get st.proxies_by_dpid target.dpid).getD [] with
        | nil =>
          rw [trigger_event_no_proxy st target strategy target_ip duration_s now_ms
            hh ha hs hp]
          exact ⟨rfl, rfl, str_append_ne_empty _ _ (by decide)⟩
        | cons p ps =>
          rw [trigger_event_start_proxy st target p ps strategy target_ip duration_s
            now_ms hh ha hs hp] at h
          simp [start_event] at h
      · rw [trigger_event_start_plain st target strategy target_ip duration_s now_ms
          hh ha hs] at h
        simp [start_event] at h

/-- A 400 response from the validated request body means nothing happened:
unchanged state, no message sent, and a nonempty reason. -/
theorem post_checks_400 (st : GPTState) (s ti : String) (dv : Rat) (now_ms : Nat)
    (hstatus : (post_checks st s ti dv now_ms).response.status = 400) :
    (post_checks st s ti dv now_ms).state = st ∧
    (post_checks st s ti dv now_ms).msgs = [] ∧
    (post_checks st s ti dv now_ms).response.body ≠ "" := by
  unfold post_checks at hstatus ⊢
  by_cases h1 : ¬ (s = "myco_scout" ∨ s = "myco_box" ∨ s = "myco_swap")
  · rw [if_pos h1]
    exact ⟨rfl, rfl, (show ("Invalid strategy" : String) ≠ "" by decide)⟩
  · rw [if_neg h1] at hstatus ⊢
    by_cases h2 : ti = ""
    · rw [if_pos h2]
      exact ⟨rfl, rfl, (show ("Missing target_ip" : String) ≠ "" by decide)⟩
    · rw [if_neg h2] at hstatus ⊢
      by_cases h3 : dv ≤ 0 ∨ 120 < dv
      · rw [if_pos h3]
        exact ⟨rfl, rfl, (show ("Invalid duration_s" : String) ≠ "" by decide)⟩
      · rw [if_neg h3] at hstatus ⊢
        by_cases hok : (trigger_event st s ti dv now_ms).ok = true
        · rw [if_pos hok] at hstatus
          have h200 : (200 : Nat) = 400 := hstatus
          exact absurd h200 (by decide)
        · rw [if_neg hok] at hstatus ⊢
          rw [Bool.not_eq_true] at hok
          have hdec := trigger_event_declined _ _ _ _ _ hok
          exact ⟨hdec.1, hdec.2.1, hdec.2.2⟩

def c6_state : GPTState :=
  ⟨[], [1], [("10.0.0.7", ⟨"10.0.0.7", "00:00:00:00:00:07", 1⟩)], [], none, [], 1, []⟩

def c6_bad_request : EventRequest :=
  ⟨some (JVal.jstr "myco_scout"), some (JVal.jstr "10.0.0.7"), some (JVal.jstr "abc")⟩

/-- Claim C6 counterexample: a trigger request whose duration_s field is the
non-numeric string abc makes post_event raise — float() is called before any
validation check and outside any try block, so the exception reaches the
caller instead of a declined response. -/
theorem C6_counterexample :
    post_event c6_state c6_bad_request 1000 =
      Except.error "ValueError: could not convert string to float" := by
  rfl

/-- Claim C6 as amended: for every request whose duration_s field converts to
a number, validation (strategy tag, nonempty target, duration in (0,120],
target known, no episode active, decoy present for box/swap) happens before
any state mutation — every failing request yields a declined 400 response
with a nonempty reason, unchanged state and no emitted message, and no
exception reaches the caller; a request whose duration_s does not convert
raises out of the handler (see the counterexample). -/
theorem C6_validation_amended (st : GPTState) (req : EventRequest) (now_ms : Nat)
    (dv : Rat) (hd : pyFloat (req.duration_s.getD (JVal.jnum 8)) = Except.ok dv) :
    (∀ e, post_event st req now_ms ≠ Except.error e) ∧
    (∀ r, post_event st req now_ms = Except.ok r → r.response.status = 400 →
      r.state = st ∧ r.msgs = [] ∧ r.response.body ≠ "") := by
  constructor
  · intro e he
    simp only [post_event, hd] at he
    exact Except.noConfusion he
  · intro r hr hstatus
    simp only [post_event, hd, Except.ok.injEq] at hr
    subst hr
    exact post_checks_400 st _ _ dv now_ms hstatus

def c6_ok_request : EventRequest :=
  ⟨some (JVal.jstr "myco_scout"), some (JVal.jstr "10.0.0.99"), some (JVal.jnum 8)⟩

/-- Witness for the amended C6: a request with a numeric duration never
surfaces an exception. -/
theorem C6_validation_amended_witness :
    post_event c6_state c6_ok_request 1000 ≠
      Except.error "ValueError: could not convert string to float" := by
  exact (C6_validation_amended c6_state c6_ok_request 1000 8 rfl).1 _

/-! ## Claim C7 (cleanup by cookie) -/

theorem land_full_mask (n : Nat) (h : n < 2 ^ 64) : n &&& FULL_COOKIE_MASK = n := by
  have hm : FULL_COOKIE_MASK = 2 ^ 64 - 1 := by norm_num [FULL_COOKIE_MASK]
  rw [hm]
  exact Nat.and_pow_two_sub_one_of_lt_two_pow h

theorem deleteMatches_full (c : Nat) (r : FlowRule) (hc : c < 2 ^ 64)
    (hr : r.cookie < 2 ^ 64) :
    deleteMatches c FULL_COOKIE_MASK r = (r.cookie == c) := by
  unfold deleteMatches
  rw [land_full_mask r.cookie hr, land_full_mask c hc]

theorem applyMsgs_cleanup_post (dpid : Nat) (tbl : List FlowRule) (ds : List Nat)
    (c : Nat) :
    applyMsgsToTable dpid (tbl.filter (fun r => !(deleteMatches c FULL_COOKIE_MASK r)))
        (cleanup_event ds c) =
      tbl.filter (fun r => !(deleteMatches c FULL_COOKIE_MASK r)) := by
  induction ds with
  | nil => rfl
  | cons d rest ih =>
    unfold cleanup_event applyMsgsToTable at ih ⊢
    simp only [List.map_cons, List.foldl_cons]
    by_cases hdd : d = dpid
    · subst hdd
      have h1 : applyMsgToTable d
          (tbl.filter (fun r => !(deleteMatches c FULL_COOKIE_MASK r)))
          (OFMsg.flowDelete d c FULL_COOKIE_MASK) =
          tbl.filter (fun r => !(deleteMatches c FULL_COOKIE_MASK r)) := by
        simp only [applyMsgToTable, if_pos rfl]
        rw [List.filter_filter]
        simp
      rw [h1]
      exact ih
    · have h1 : applyMsgToTable dpid
          (tbl.filter (fun r => !(deleteMatches c FULL_COOKIE_MASK r)))
          (OFMsg.flowDelete d c FULL_COOKIE_MASK) =
          tbl.filter (fun r => !(deleteMatches c FULL_COOKIE_MASK r)) := by
        simp [applyMsgToTable, hdd]
      rw [h1]
      exact ih

theorem applyMsgs_cleanup (dpid : Nat) (tbl : List FlowRule) (ds : List Nat) (c : Nat)
    (hd : dpid ∈ ds) :
    applyMsgsToTable dpid tbl (cleanup_event ds c) =
      tbl.filter (fun r => !(deleteMatches c FULL_COOKIE_MASK r)) := by
  induction ds generalizing tbl with
  | nil => cases hd
  | cons d rest ih =>
    rw [List.mem_cons] at hd
    unfold cleanup_event applyMsgsToTable
    simp only [List.map_cons, List.foldl_cons]
    by_cases hdd : d = dpid
    · subst hdd
      have h1 : applyMsgToTable d tbl (OFMsg.flowDelete d c FULL_COOKIE_MASK) =
          tbl.filter (fun r => !(deleteMatches c FULL_COOKIE_MASK r)) := by
        simp [applyMsgToTable]
      rw [h1]
      exact applyMsgs_cleanup_post d tbl rest c
    · have hdr : dpid ∈ rest := by
        rcases hd with h | h
        · exact absurd h.symm hdd
        · exact h
      have h1 : applyMsgToTable dpid tbl (OFMsg.flowDelete d c FULL_COOKIE_MASK) =
          tbl := by
        simp [applyMsgToTable, hdd]
      rw [h1]
      exact ih tbl hdr

/-- Claim C7: every rule emitted by the strategy start routine carries the
episode cookie, and the end-of-episode cookie-masked delete removes from a
flow table of a switch exactly the rules carrying that cookie: baseline rules,
installed without a cookie (cookie 0), never match the masked delete and
remain installed.  Cookie bounds reflect the 64-bit protocol field; the
episode cookie int(time.time()*1000) is nonzero. -/
theorem C7_cleanup_exact (st : GPTState) (e : MycoEvent) (tbl : List FlowRule)
    (dpid : Nat) (hc0 : e.cookie ≠ 0) (hcb : e.cookie < 2 ^ 64)
    (hb : ∀ r ∈ tbl, r.cookie < 2 ^ 64) (hd : dpid ∈ st.datapaths) :
    (∀ m ∈ apply_strategy_start st.datapaths e, msgCookie m = some e.cookie) ∧
    applyMsgsToTable dpid tbl (cleanup_event st.datapaths e.cookie) =
      tbl.filter (fun r => !(r.cookie == e.cookie)) ∧
    ∀ r ∈ tbl, r.cookie = 0 →
      r ∈ applyMsgsToTable dpid tbl (cleanup_event st.datapaths e.cookie) := by
  have hfe : tbl.filter (fun r => !(deleteMatches e.cookie FULL_COOKIE_MASK r)) =
      tbl.filter (fun r => !(r.cookie == e.cookie)) := by
    apply List.filter_congr
    intro r hr
    rw [deleteMatches_full e.cookie r hcb (hb r hr)]
  have hB : applyMsgsToTable dpid tbl (cleanup_event st.datapaths e.cookie) =
      tbl.filter (fun r => !(r.cookie == e.cookie)) := by
    rw [applyMsgs_cleanup dpid tbl st.datapaths e.cookie hd, hfe]
  refine ⟨?_, hB, ?_⟩
  · intro m hm
    unfold apply_strategy_start at hm
    split_ifs at hm
    · unfold myco_scout_isolate at hm
      rw [List.mem_flatMap] at hm
      obtain ⟨d, hd2, hm⟩ := hm
      simp only [List.mem_cons, List.not_mem_nil, or_false] at hm
      rcases hm with rfl | rfl <;> rfl
    · unfold myco_box_quarantine at hm
      split_ifs at hm
      · simp only [List.mem_singleton] at hm
        subst hm
        rfl
      · exact absurd hm (List.not_mem_nil m)
    · unfold myco_swap_replace at hm
      split_ifs at hm
      · simp only [List.mem_cons, List.not_mem_nil, or_false] at hm
        rcases hm with rfl | rfl <;> rfl
      · exact absurd hm (List.not_mem_nil m)
    · exact absurd hm (List.not_mem_nil m)
  · intro r hr hr0
    rw [hB, List.mem_filter]
    refine ⟨hr, ?_⟩
    rw [hr0]
    simp [Ne.symm hc0]

def c7_state : GPTState := ⟨[], [1], [], [], none, [], 1, []⟩

def c7_event : MycoEvent := ⟨"myco_scout", "10.0.0.7", "00:00:00:00:00:07", 1, "", "", 0, 8, 5⟩

def c7_tbl : List FlowRule :=
  [⟨0, 0, OFMatch.empty, [OFAction.output OFPP_CONTROLLER], 0, 0⟩,
   ⟨5, 300, matchIpDst "10.0.0.7", [], 0, 0⟩]

/-- Witness for C7: cleaning up cookie 5 deletes the scout drop rule and keeps
the cookie-less table-miss rule. -/
theorem C7_cleanup_exact_witness :
    applyMsgsToTable 1 c7_tbl (cleanup_event c7_state.datapaths c7_event.cookie) =
      [⟨0, 0, OFMatch.empty, [OFAction.output OFPP_CONTROLLER], 0, 0⟩] := by
  have h := C7_cleanup_exact c7_state c7_event c7_tbl 1 (by decide) (by decide)
    (by decide) (by decide)
  rw [h.2.1]
  rfl

/-! ## Claim C8 (sandbox rules) -/

/-- Claim C8: when the Sandbox (Myco-Box) strategy starts and the target
switch is connected, exactly one rule is installed — on the target edge
switch, rewriting traffic destined to the target address to the decoy
network and link-layer address and outputting on the decoy port — and no
rule with an empty action list is emitted (return traffic is left to default
forwarding). -/
theorem C8_sandbox_rule (datapaths : List Nat) (e : MycoEvent)
    (hd : e.target_dpid ∈ datapaths) :
    myco_box_quarantine datapaths e =
      [OFMsg.flowAdd e.target_dpid e.cookie 320 (matchIpDst e.target_ip)
        [OFAction.setIpv4Dst e.proxy_ip, OFAction.setEthDst e.proxy_mac,
         OFAction.output e.proxy_port] 0 0 OFP_NO_BUFFER] ∧
    ∀ m ∈ myco_box_quarantine datapaths e, hasEmptyActionAdd m = false := by
  unfold myco_box_quarantine
  rw [if_pos hd]
  refine ⟨rfl, ?_⟩
  intro m hm
  simp only [List.mem_singleton] at hm
  subst hm
  rfl

def c8_event : MycoEvent :=
  ⟨"myco_box", "10.0.0.7", "00:00:00:00:00:07", 1, "10.0.0.9", "00:00:00:00:00:09",
   4, 8, 99⟩

/-- Witness for C8 at a concrete event and switch set. -/
theorem C8_sandbox_rule_witness :
    myco_box_quarantine [1] c8_event =
      [OFMsg.flowAdd 1 99 320 (matchIpDst "10.0.0.7")
        [OFAction.setIpv4Dst "10.0.0.9", OFAction.setEthDst "00:00:00:00:00:09",
         OFAction.output 4] 0 0 OFP_NO_BUFFER] := by
  exact (C8_sandbox_rule [1] c8_event (by decide)).1

/-! ## Claim C9 (proxy-swap ARP reply) -/

def c9_event : MycoEvent :=
  ⟨"myco_swap", "10.0.0.7", "00:00:00:00:00:07", 1, "10.0.0.9", "00:00:00:00:00:09",
   3, 8, 1000⟩

def c9_state : GPTState := ⟨[], [1], [], [], some c9_event, [], 1, []⟩

/-- Claim C9 (code bug): with a Proxy-Swap episode active for 10.0.0.7 and an
ARP request for that address arriving as a packet-in, the handler raises
NameError — myco_controller_gpt.py line 247 evaluates ether.ETH_TYPE_ARP but
the module never imports ether — before building or sending the ARP reply,
so no reply carrying the decoy link-layer address is ever emitted. -/
theorem C9_arp_reply_namerror :
    handle_arp c9_state 1 2 "00:00:00:00:00:05" ARP_REQUEST "00:00:00:00:00:05"
      "10.0.0.5" "10.0.0.7" = Except.error "NameError: name ether is not defined" := by
  rfl

/-! ## Claim C10 (ARP packet-in side effects) -/

/-- Claim C10: a packet-in whose payload is ARP is consumed without learning —
the handler never records the (switch, source) to port association, never
installs a flow rule, and never floods or forwards the frame.  Every run
either returns the unchanged state with no output or raises the C9 NameError
(in the branch that would emit the steering reply, before emitting anything);
in particular with no active episode, or when the frame is not an ARP
request, the result is exactly no output and no state change. -/
theorem C10_arp_no_learning (st : GPTState) (dpid in_port buffer_id : Nat)
    (f : EthFrame) (op : Nat) (smac sip dip : String)
    (hp : f.payload = Payload.arpPayload op smac sip dip) :
    (gpt_packet_in st dpid in_port buffer_id (some f) = Except.ok (st, []) ∨
     gpt_packet_in st dpid in_port buffer_id (some f) =
       Except.error "NameError: name ether is not defined") ∧
    (st.active_event = none →
      gpt_packet_in st dpid in_port buffer_id (some f) = Except.ok (st, [])) ∧
    (op ≠ ARP_REQUEST →
      gpt_packet_in st dpid in_port buffer_id (some f) = Except.ok (st, [])) := by
  simp only [gpt_packet_in, hp]
  unfold handle_arp
  by_cases hop : op ≠ ARP_REQUEST
  · rw [if_pos hop]
    exact ⟨Or.inl rfl, fun _ => rfl, fun _ => rfl⟩
  · rw [if_neg hop]
    cases hae : st.active_event with
    | none =>
      exact ⟨Or.inl rfl, fun _ => rfl, fun h => absurd h hop⟩
    | some e =>
      dsimp only
      by_cases hdip : dip ≠ e.target_ip
      · rw [if_pos hdip]
        exact ⟨Or.inl rfl, fun h => Option.noConfusion h, fun h => absurd h hop⟩
      · rw [if_neg hdip]
        by_cases hmac : e.proxy_mac = ""
        · rw [if_pos hmac]
          exact ⟨Or.inl rfl, fun h => Option.noConfusion h, fun h => absurd h hop⟩
        · rw [if_neg hmac]
          exact ⟨Or.inr rfl, fun h => Option.noConfusion h, fun h => absurd h hop⟩

def c10_state : GPTState := ⟨[], [1], [], [], none, [], 1, []⟩

/-- Witness for C10: with no episode active, an ARP request packet-in yields
no output and no state change. -/
theorem C10_arp_no_learning_witness :
    gpt_packet_in c10_state 1 2 OFP_NO_BUFFER
      (some ⟨"00:00:00:00:00:01", "ff:ff:ff:ff:ff:ff",
        Payload.arpPayload 1 "00:00:00:00:00:01" "10.0.0.1" "10.0.0.7"⟩) =
      Except.ok (c10_state, []) := by
  exact (C10_arp_no_learning c10_state 1 2 OFP_NO_BUFFER _ 1 "00:00:00:00:00:01"
    "10.0.0.1" "10.0.0.7" rfl).2.1 rfl

end Myco
